import Mathlib

/-!
Verification of the AdCP Python client protocol-adapter core: the task-result
data model (types/core.py), the A2A adapter reply dispatch and envelope
extraction (protocols/a2a.py), the MCP adapter call and session fallback
(protocols/mcp.py), the result normalizer (protocols/base.py), the simple
accessor unwrap (simple.py), and the exception hierarchy (exceptions.py).
-/

namespace Adcp

/-- Dynamic Python values as decoded from JSON by response.json: null, bool,
number, string, list, object. Numbers are modelled as integers; no claim
involves fractional arithmetic. -/
inductive PyVal where
  | none
  | bool (b : Bool)
  | num (n : Int)
  | str (s : String)
  | list (xs : List PyVal)
  | dict (fields : List (String × PyVal))
deriving Repr, Inhabited

namespace PyVal

mutual

def decEq : (a b : PyVal) → Decidable (a = b)
  | .none, .none => .isTrue rfl
  | .bool a, .bool b =>
    if h : a = b then .isTrue (by rw [h]) else .isFalse (by simp [h])
  | .num a, .num b =>
    if h : a = b then .isTrue (by rw [h]) else .isFalse (by simp [h])
  | .str a, .str b =>
    if h : a = b then .isTrue (by rw [h]) else .isFalse (by simp [h])
  | .list xs, .list ys =>
    match decEqList xs ys with
    | .isTrue h => .isTrue (by rw [h])
    | .isFalse h => .isFalse (by simp [h])
  | .dict xs, .dict ys =>
    match decEqFields xs ys with
    | .isTrue h => .isTrue (by rw [h])
    | .isFalse h => .isFalse (by simp [h])
  | .none, .bool _ | .none, .num _ | .none, .str _ | .none, .list _ | .none, .dict _
  | .bool _, .none | .bool _, .num _ | .bool _, .str _ | .bool _, .list _ | .bool _, .dict _
  | .num _, .none | .num _, .bool _ | .num _, .str _ | .num _, .list _ | .num _, .dict _
  | .str _, .none | .str _, .bool _ | .str _, .num _ | .str _, .list _ | .str _, .dict _
  | .list _, .none | .list _, .bool _ | .list _, .num _ | .list _, .str _ | .list _, .dict _
  | .dict _, .none | .dict _, .bool _ | .dict _, .num _ | .dict _, .str _ | .dict _, .list _ =>
    .isFalse (by intro h; exact PyVal.noConfusion h)

def decEqList : (xs ys : List PyVal) → Decidable (xs = ys)
  | [], [] => .isTrue rfl
  | x :: xs, y :: ys =>
    match decEq x y, decEqList xs ys with
    | .isTrue h1, .isTrue h2 => .isTrue (by rw [h1, h2])
    | .isFalse h1, _ => .isFalse (by simp [h1])
    | _, .isFalse h2 => .isFalse (by simp [h2])
  | [], _ :: _ => .isFalse (by simp)
  | _ :: _, [] => .isFalse (by simp)

def decEqFields : (xs ys : List (String × PyVal)) → Decidable (xs = ys)
  | [], [] => .isTrue rfl
  | (k1, v1) :: xs, (k2, v2) :: ys =>
    match String.decEq k1 k2, decEq v1 v2, decEqFields xs ys with
    | .isTrue hk, .isTrue hv, .isTrue ht => .isTrue (by rw [hk, hv, ht])
    | .isFalse hk, _, _ => .isFalse (by simp [hk])
    | _, .isFalse hv, _ => .isFalse (by simp [hv])
    | _, _, .isFalse ht => .isFalse (by simp [ht])
  | [], _ :: _ => .isFalse (by simp)
  | _ :: _, [] => .isFalse (by simp)

end

instance : DecidableEq PyVal := decEq

/-- Lookup of a key in an object field list, first occurrence. Python dict
keys are unique, so first-occurrence lookup is faithful. -/
def lookupField : List (String × PyVal) → String → Option PyVal
  | [], _ => Option.none
  | (k, v) :: rest, key => if k = key then some v else lookupField rest key

/-- Lookup of a key on a value: some result only when the value is an object
holding the key. Python would raise AttributeError on a non-dict receiver;
every theorem below applies this only to object values. -/
def dictLookup : PyVal → String → Option PyVal
  | .dict fields, key => lookupField fields key
  | _, _ => Option.none

/-- Python d.get(key): the stored value, which can itself be null, or null
when the key is missing. -/
def pyGet (v : PyVal) (key : String) : PyVal :=
  (dictLookup v key).getD .none

/-- Python d.get(key, default): the stored value (even an explicit null), or
the default when the key is missing. -/
def pyGetD (v : PyVal) (key : String) (default : PyVal) : PyVal :=
  (dictLookup v key).getD default

/-- Python truthiness of a value, as used by bool(...) and if-not tests. -/
def pyTruthy : PyVal → Bool
  | .none => false
  | .bool b => b
  | .num n => n != 0
  | .str s => !s.isEmpty
  | .list xs => !xs.isEmpty
  | .dict fields => !fields.isEmpty

/-- A Python value assigned to an optional pydantic field: an explicit null
is stored as the absent value, indistinguishable from the default. -/
def pyToOpt : PyVal → Option PyVal
  | .none => Option.none
  | v => some v

/-- Python str(...) on the values the adapters stringify. Text parts carry
strings; the rendering of containers is never consulted by a theorem. -/
def pyStr : PyVal → String
  | .none => "None"
  | .bool true => "True"
  | .bool false => "False"
  | .num n => toString n
  | .str s => s
  | .list _ => "<list>"
  | .dict _ => "<dict>"

end PyVal

open PyVal

/-- Task execution status, from types/core.py TaskStatus. -/
inductive TaskStatus where
  | completed
  | submitted
  | needs_input
  | failed
  | working
deriving DecidableEq, Repr

/-- Wire value of a TaskStatus, from the str-Enum values in types/core.py. -/
def TaskStatus.value : TaskStatus → String
  | .completed => "completed"
  | .submitted => "submitted"
  | .needs_input => "needs_input"
  | .failed => "failed"
  | .working => "working"

/-- Information about a submitted async task, from types/core.py. -/
structure SubmittedInfo where
  webhook_url : String
  operation_id : String
deriving DecidableEq, Repr

/-- Information when the agent needs clarification, from types/core.py. -/
structure NeedsInputInfo where
  message : String
  field : Option String := Option.none
deriving DecidableEq, Repr

/-- Debug information, from types/core.py DebugInfo. The duration field is a
Python float of milliseconds; it is modelled as an integer count because no
claim computes with it. -/
structure DebugInfo where
  request : PyVal
  response : PyVal
  duration_ms : Option Int := Option.none
deriving DecidableEq, Repr

/-- Result from task execution, from types/core.py TaskResult. The payload
type parameter is instantiated at PyVal: the adapters work on raw decoded
values. Note that the model defines no message field; the source passes a
message keyword at two construction sites in protocols/a2a.py, and pydantic
silently drops unknown keyword arguments, so no message is retained. -/
structure TaskResult where
  status : TaskStatus
  data : Option PyVal := Option.none
  submitted : Option SubmittedInfo := Option.none
  needs_input : Option NeedsInputInfo := Option.none
  error : Option String := Option.none
  success : Bool := true
  metadata : Option (List (String × PyVal)) := Option.none
  debug_info : Option DebugInfo := Option.none
deriving DecidableEq, Repr

/-- Supported protocols, from types/core.py. -/
inductive Protocol where
  | a2a
  | mcp
deriving DecidableEq, Repr

/-- Agent configuration, from types/core.py AgentConfig. The timeout is a
Python float of seconds, modelled as an integer because no claim computes
with it. -/
structure AgentConfig where
  id : String
  agent_uri : String
  protocol : Protocol
  auth_token : Option String := Option.none
  requires_auth : Bool := false
  auth_header : String := "x-adcp-auth"
  auth_type : String := "token"
  timeout : Int := 30
  mcp_transport : String := "streamable_http"
  debug : Bool := false
deriving DecidableEq, Repr

/-- Test used by _extract_result: the kind key of the part is the string
data. -/
def isDataPart (p : PyVal) : Bool :=
  match pyGet p "kind" with
  | .str s => s = "data"
  | _ => false

/-- Test used by _extract_text_part: the kind key of the part is the string
text. -/
def isTextPart (p : PyVal) : Bool :=
  match pyGet p "kind" with
  | .str s => s = "text"
  | _ => false

/-- Extraction of the result payload from an A2A reply, from protocols/a2a.py
A2AAdapter._extract_result. The artifacts value defaults to an empty list when
the key is missing; an empty artifacts list, an artifact without parts, or an
artifact without a data-kind part all fall back to returning the raw reply.
Otherwise the data field of the last data-kind part of the last artifact is
returned, defaulting to an empty object when that part has no data key. A
non-list artifacts or parts value would raise in Python; it is modelled as the
raw-reply fallback, and every theorem below restricts to list-shaped
envelopes. -/
def extract_result (response_data : PyVal) : PyVal :=
  match pyGetD response_data "artifacts" (.list []) with
  | .list artifacts =>
    match artifacts.getLast? with
    | Option.none => response_data
    | some target_artifact =>
      match pyGetD target_artifact "parts" (.list []) with
      | .list parts =>
        if parts.isEmpty then response_data
        else
          match (parts.filter isDataPart).getLast? with
          | Option.none => response_data
          | some last_data_part => pyGetD last_data_part "data" (.dict [])
      | _ => response_data
  | _ => response_data

/-- Extraction of a human-readable message from an A2A reply, from
protocols/a2a.py A2AAdapter._extract_text_part. The loop returns at the FIRST
part whose kind is text, yielding str of its text field, or null when that
text field is null. -/
def extract_text_part (response_data : PyVal) : Option String :=
  match pyGetD response_data "artifacts" (.list []) with
  | .list artifacts =>
    match artifacts.getLast? with
    | Option.none => Option.none
    | some target_artifact =>
      match pyGetD target_artifact "parts" (.list []) with
      | .list parts =>
        match parts.find? isTextPart with
        | Option.none => Option.none
        | some part =>
          match pyGet part "text" with
          | .none => Option.none
          | v => some (pyStr v)
      | _ => Option.none
  | _ => Option.none

/-- Python x or default for an optional string: the fallback is used when the
value is null or an empty (falsy) string. -/
def orDefaultStr (s : Option String) (default : String) : String :=
  match s with
  | some t => if t.isEmpty then default else t
  | Option.none => default

/-- Metadata built on the completed and working branch of
A2AAdapter._call_a2a_tool: the taskId and contextId of the reply. -/
def a2aMetadata (data : PyVal) : List (String × PyVal) :=
  [("task_id", pyGet data "taskId"), ("context_id", pyGet data "contextId")]

/-- Dispatch of a decoded A2A reply body into a TaskResult, from
protocols/a2a.py A2AAdapter._call_a2a_tool lines 130 to 187 (after the HTTP
exchange succeeded). The source also passes message gleaned by
extract_text_part on the completed, working and other branches; TaskResult
defines no message field and pydantic ignores unknown keywords, so the model
has nothing to store for it. -/
def a2aDispatch (data : PyVal) (debug_info : Option DebugInfo) : TaskResult :=
  match pyGet data "status" with
  | .str "completed" =>
    let result_data := extract_result data
    let errors :=
      match result_data with
      | .dict _ => pyGetD result_data "errors" (.list [])
      | _ => .list []
    let has_errors := pyTruthy errors
    { status := .completed
      data := pyToOpt result_data
      success := !has_errors
      metadata := some (a2aMetadata data)
      debug_info := debug_info }
  | .str "failed" =>
    { status := .failed
      error := some (orDefaultStr (extract_text_part data) "Task failed")
      success := false
      debug_info := debug_info }
  | .str "working" =>
    { status := .submitted
      data := pyToOpt (extract_result data)
      success := true
      metadata := some (a2aMetadata data)
      debug_info := debug_info }
  | _ =>
    { status := .submitted
      data := pyToOpt (extract_result data)
      success := true
      metadata := some (a2aMetadata data)
      debug_info := debug_info }

/-- Result built on the httpx.HTTPError handler of
A2AAdapter._call_a2a_tool: a Failed result carrying str of the exception. -/
def a2aHttpErrorResult (e : String) (debug_info : Option DebugInfo) : TaskResult :=
  { status := .failed
    error := some e
    success := false
    debug_info := debug_info }

/-- Result of MCPAdapter.call_tool given the outcome of the session call,
from protocols/mcp.py: the content list of a successful call becomes a
Completed result, any exception becomes a Failed result carrying str of the
exception. -/
def mcpCallTool (outcome : Except String PyVal) : TaskResult :=
  match outcome with
  | .ok content =>
    { status := .completed
      data := pyToOpt content
      success := true }
  | .error e =>
    { status := .failed
      error := some e
      success := false }

/-- Parser choice of _parse_response: a list payload is an MCP content array
and goes to parse_mcp_content, any other payload goes to
parse_json_or_text. -/
def selectParse (parse_mcp_content parse_json_or_text : PyVal → Except String PyVal)
    (d : PyVal) : Except String PyVal :=
  match d with
  | .list _ => parse_mcp_content d
  | _ => parse_json_or_text d

/-- Result normalizer, from protocols/base.py ProtocolAdapter._parse_response.
The two parse helpers live in adcp/utils/response_parser.py, which is not in
the sources; they are passed here as parameters and instantiated below with a
version modelled from the spec. A parser failure stands for a raised
ValueError, the only exception class the source catches; the modelled parsers
fail only that way. The guard keeps the source order: a result that is not a
success or carries no data passes through unchanged; a parsed result is
rebuilt from the explicit field list of the source (status, data, success,
error, metadata, debug_info), a failed parse becomes a Failed result. -/
def parse_response (parse_mcp_content parse_json_or_text : PyVal → Except String PyVal)
    (raw_result : TaskResult) : TaskResult :=
  if raw_result.success = false ∨ raw_result.data = Option.none then raw_result
  else
    match raw_result.data with
    | Option.none => raw_result
    | some d =>
      match selectParse parse_mcp_content parse_json_or_text d with
      | .ok parsed_data =>
        { status := raw_result.status
          data := some parsed_data
          success := raw_result.success
          error := raw_result.error
          metadata := raw_result.metadata
          debug_info := raw_result.debug_info }
      | .error e =>
        { status := .failed
          error := some (String.append "Failed to parse response: " e)
          success := false
          debug_info := raw_result.debug_info }

/-- Modelled from the spec: adcp/utils/response_parser.py (parse_json_or_text
and parse_mcp_content) is absent from the sources. Section 4.3 describes the
missing parse pass as validate or coerce the raw payload directly into the
target shape, failing fast with a descriptive validation error. A target
shape is a list of field names with optional defaults; coercion keeps the
declared fields, fills defaults for missing optional ones, and fails on a
missing required field or a non-object payload. -/
def coerceFields (fields : List (String × PyVal)) :
    List (String × Option PyVal) → Except String (List (String × PyVal))
  | [] => .ok []
  | (k, dflt) :: rest =>
    match lookupField fields k, dflt with
    | some value, _ => (coerceFields fields rest).map (fun out => (k, value) :: out)
    | Option.none, some d => (coerceFields fields rest).map (fun out => (k, d) :: out)
    | Option.none, Option.none => .error (String.append "missing required field " k)

/-- Coercion of a raw payload into a target shape; see coerceFields. -/
def coerceShape (shape : List (String × Option PyVal)) (v : PyVal) : Except String PyVal :=
  match v with
  | .dict fields =>
    match coerceFields fields shape with
    | .ok out => .ok (.dict out)
    | .error e => .error e
  | _ => .error "response payload is not an object"

/-- Unwrap of a TaskResult by the simple accessor, from simple.py
SimpleAPI._unwrap. A raised ADCPSimpleError is modelled as the error branch
carrying the message. The failed branch applies the Python or idiom to the
error detail, so a null or empty error string is replaced by the unknown
fallback. -/
def unwrap (result : TaskResult) : Except String PyVal :=
  if result.status = .completed ∧ result.data ≠ Option.none then
    .ok (result.data.getD .none)
  else if result.status = .submitted then
    .error (String.append "Task submitted for async processing. Webhook: "
      (match result.submitted with
       | some s => s.webhook_url
       | Option.none => "unknown"))
  else if result.status = .needs_input then
    .error (String.append "Agent needs input: "
      (match result.needs_input with
       | some n => n.message
       | Option.none => "unknown"))
  else if result.status = .failed then
    .error (String.append "Task failed: " (orDefaultStr result.error "unknown error"))
  else
    .error (String.append "Unexpected task status: " result.status.value)

/-- Python rstrip applied with a slash: all trailing slashes removed. -/
def rstripSlash (s : String) : String :=
  ⟨(s.data.reverse.dropWhile (fun c => c = '/')).reverse⟩

/-- Python endswith on strings, modelled over the character lists. -/
def strEndsWith (s suffix : String) : Bool :=
  suffix.data.isSuffixOf s.data

/-- Candidate URL list for MCP session acquisition, from protocols/mcp.py
MCPAdapter._get_session lines 68 to 74: the configured URI verbatim, then the
rstripped URI with the mcp suffix appended unless the rstripped URI already
ends in that suffix. -/
def urlsToTry (agent_uri : String) : List String :=
  if strEndsWith (rstripSlash agent_uri) "/mcp" then
    [agent_uri]
  else
    [agent_uri, String.append (rstripSlash agent_uri) "/mcp"]

/-- Connection attempts made by the fallback loop of
MCPAdapter._get_session, given which URLs a connection attempt would succeed
on: candidates are tried in order and the loop stops at the first success. -/
def attemptsMade (connectOk : String → Bool) : List String → List String
  | [] => []
  | url :: rest => if connectOk url then [url] else url :: attemptsMade connectOk rest

/-- Outcome of constructing and raising a Python exception at an adapter
raise site. -/
inductive PyRaise where
  | exc (cls : String) (args : List PyVal)
  | typeError
deriving DecidableEq, Repr

/-- Construction of an exception from adcp/exceptions.py. None of the classes
there defines an init method, so construction falls through to the built-in
BaseException init, which accepts positional arguments only: any keyword
argument makes the construction itself raise TypeError. -/
def adcpErrorNew (cls : String) (args : List PyVal)
    (kwargs : List (String × PyVal)) : PyRaise :=
  if kwargs.isEmpty then .exc cls args else .typeError

/-- The exception raise in the HTTPStatusError handler of
A2AAdapter.list_tools (protocols/a2a.py lines 367 to 382), given the HTTP
status code of the failed agent-card fetch: status 401 or 403 goes to
ADCPAuthenticationError, anything else to ADCPConnectionError, both called
with agent id and agent URI keyword arguments. -/
def a2aListToolsRaise (cfg : AgentConfig) (status_code : Int) : PyRaise :=
  if status_code = 401 ∨ status_code = 403 then
    adcpErrorNew "ADCPAuthenticationError"
      [.str (String.append "Authentication failed: HTTP " (toString status_code))]
      [("agent_id", .str cfg.id), ("agent_uri", .str cfg.agent_uri)]
  else
    adcpErrorNew "ADCPConnectionError"
      [.str (String.append "Failed to fetch agent card: HTTP " (toString status_code))]
      [("agent_id", .str cfg.id), ("agent_uri", .str cfg.agent_uri)]

/-- Substring test on character lists, used to model the Python in operator
on strings. -/
def listContains : List Char → List Char → Bool
  | [], pat => pat.isEmpty
  | s@(_ :: rest), pat => pat.isPrefixOf s || listContains rest pat

/-- Substring test on strings. -/
def strContains (s pat : String) : Bool :=
  listContains s.data pat.data

/-- ASCII lowering of one character, modelling Python str.lower on the ASCII
error messages the classification inspects. -/
def charLower (c : Char) : Char :=
  if 65 ≤ c.toNat ∧ c.toNat ≤ 90 then Char.ofNat (c.toNat + 32) else c

/-- Python str.lower over the character list. -/
def strLower (s : String) : String :=
  ⟨s.data.map charLower⟩

/-- The classifying raise at the end of MCPAdapter._get_session
(protocols/mcp.py lines 146 to 160), given str of the last connection error:
an unauthorized-looking message raises ADCPAuthenticationError, a
timeout-looking one ADCPTimeoutError, anything else ADCPConnectionError. All
three are called with a single positional message naming the agent id only:
no keyword arguments, no agent URI, and no timeout value. -/
def mcpClassifyRaise (cfg : AgentConfig) (last_error : String) : PyRaise :=
  let e := strLower last_error
  if strContains e "401" || strContains e "403" || strContains e "unauthorized" then
    adcpErrorNew "ADCPAuthenticationError"
      [.str (String.append (String.append "Authentication failed for agent " cfg.id)
        (String.append ": " last_error))] []
  else if strContains e "timeout" then
    adcpErrorNew "ADCPTimeoutError"
      [.str (String.append (String.append "Connection timeout for agent " cfg.id)
        (String.append ": " last_error))] []
  else
    adcpErrorNew "ADCPConnectionError"
      [.str (String.append (String.append "Failed to connect to agent " cfg.id)
        (String.append ": " last_error))] []

/-- State of the A2A adapter HTTP client reference, from protocols/a2a.py:
client identities are abstracted to naturals. -/
def A2AClientState := Option Nat

/-- A2AAdapter.close: when a client exists it is closed and the reference
cleared; otherwise nothing happens. The boolean records whether a teardown
was performed. -/
def a2aClose (s : A2AClientState) : A2AClientState × Bool :=
  match s with
  | some _ => (Option.none, true)
  | Option.none => (Option.none, false)

/-- A2AAdapter._get_client: reuse the existing client, or store and return a
freshly created one. The boolean records whether a fresh client was
created. -/
def a2aGetClient (s : A2AClientState) (fresh : Nat) : A2AClientState × Nat × Bool :=
  match s with
  | some c => (some c, c, false)
  | Option.none => (some fresh, fresh, true)

/-- State of the MCP adapter, from protocols/mcp.py: the session and exit
stack references, abstracted to naturals. -/
structure MCPSessionState where
  session : Option Nat
  exit_stack : Option Nat
deriving DecidableEq, Repr

/-- MCPAdapter.close: when an exit stack exists, both references are cleared
before the stack is closed with every cleanup exception swallowed; otherwise
nothing happens. The boolean records whether a teardown was performed. -/
def mcpClose (s : MCPSessionState) : MCPSessionState × Bool :=
  match s.exit_stack with
  | some _ => ({ session := Option.none, exit_stack := Option.none }, true)
  | Option.none => (s, false)

/-- MCPAdapter._get_session entry check: an existing session is reused,
otherwise a fresh session and exit stack are established. The boolean records
whether a fresh connection was made. -/
def mcpGetSession (s : MCPSessionState) (fresh : Nat) : MCPSessionState × Nat × Bool :=
  match s.session with
  | some sess => (s, sess, false)
  | Option.none => ({ session := some fresh, exit_stack := some fresh }, fresh, true)

/-- Shape invariant actually maintained by every TaskResult the adapters and
the normalizer construct: the submitted and needs-input payloads are never
populated, a Failed result carries exactly an error with no data and success
false, and every other result carries no error. -/
def ResultShapeOK (r : TaskResult) : Prop :=
  r.submitted = Option.none ∧
  r.needs_input = Option.none ∧
  (r.status = .failed → r.error ≠ Option.none ∧ r.data = Option.none ∧ r.success = false) ∧
  (r.status ≠ .failed → r.error = Option.none)

instance (r : TaskResult) : Decidable (ResultShapeOK r) := by
  unfold ResultShapeOK
  infer_instance

/-- Well-formedness of an A2A reply envelope: the artifacts value, when
present, is a list of objects whose parts value, when present, is a list.
The adapter raises on anything else; theorems quantifying over replies
restrict to this shape. -/
def WfEnvelope (reply : PyVal) : Prop :=
  dictLookup reply "artifacts" = Option.none ∨
  ∃ arts : List PyVal, dictLookup reply "artifacts" = some (.list arts) ∧
    ∀ a ∈ arts, dictLookup a "parts" = Option.none ∨
      ∃ parts : List PyVal, dictLookup a "parts" = some (.list parts)

/-- Degenerate envelope of an A2A reply: no artifacts, or a last artifact
without parts or without a data-kind part. On such replies _extract_result
falls back to the raw reply. -/
def NoDataEnvelope (reply : PyVal) : Prop :=
  dictLookup reply "artifacts" = Option.none ∨
  dictLookup reply "artifacts" = some (.list []) ∨
  ∃ (arts : List PyVal) (lastArt : PyVal),
    dictLookup reply "artifacts" = some (.list arts) ∧
    arts.getLast? = some lastArt ∧
    (dictLookup lastArt "parts" = Option.none ∨
     dictLookup lastArt "parts" = some (.list []) ∨
     ∃ parts : List PyVal, dictLookup lastArt "parts" = some (.list parts) ∧
       parts.filter isDataPart = [])

/-- Demo target shape parser: one required products field, per the
get-products response shape; used to instantiate the spec-modelled parse
pass at concrete inputs. -/
def demoParse : PyVal → Except String PyVal :=
  coerceShape [("products", Option.none)]

/-- Demo agent configuration used by concrete evaluations. -/
def demoConfig : AgentConfig :=
  { id := "test-agent", agent_uri := "https://agent.example.com", protocol := .a2a }

/-- A2A reply with wire status working whose last artifact carries a data
part: the adapter maps it to a Submitted result that carries the payload in
data and leaves the submitted info empty. -/
def workingReply : PyVal :=
  .dict [("status", .str "working"),
         ("taskId", .str "t1"),
         ("artifacts", .list [
           .dict [("parts", .list [
             .dict [("kind", .str "data"), ("data", .dict [("progress", .num 50)])]])]])]

/-- A2A reply with wire status completed whose only data part carries an
explicit null data field: d.get with a default does not replace an explicit
null, so the adapter builds a Completed result with null data. -/
def nullDataReply : PyVal :=
  .dict [("status", .str "completed"),
         ("artifacts", .list [
           .dict [("parts", .list [
             .dict [("kind", .str "data"), ("data", PyVal.none)]])]])]

/-- A2A completed reply with two artifacts and two data parts in the last
artifact: only the last data part of the last artifact is authoritative. -/
def streamingReply : PyVal :=
  .dict [("status", .str "completed"),
         ("artifacts", .list [
           .dict [("parts", .list [
             .dict [("kind", .str "data"), ("data", .str "superseded artifact")]])],
           .dict [("parts", .list [
             .dict [("kind", .str "data"), ("data", .str "superseded part")],
             .dict [("kind", .str "text"), ("text", .str "note")],
             .dict [("kind", .str "data"), ("data", .dict [("products", .list [])])]])]])]

/-- A2A completed reply whose last artifact holds two text parts with
distinct texts before a data part. -/
def twoTextReply : PyVal :=
  .dict [("status", .str "completed"),
         ("artifacts", .list [
           .dict [("parts", .list [
             .dict [("kind", .str "text"), ("text", .str "first message")],
             .dict [("kind", .str "text"), ("text", .str "last message")],
             .dict [("kind", .str "data"), ("data", .dict [("products", .list [])])]])]])]

/-- A2A completed reply whose payload carries a non-empty errors array, as in
the budget-exceeded scenario. -/
def errorsReply : PyVal :=
  .dict [("status", .str "completed"),
         ("artifacts", .list [
           .dict [("parts", .list [
             .dict [("kind", .str "data"),
                    ("data", .dict [("errors", .list [
                      .dict [("code", .str "budget_exceeded"),
                             ("message", .str "budget exceeded")]])])]])]])]

/-- Raw Submitted result with a partial payload and success true, exactly the
shape the A2A adapter produces for a working reply. -/
def submittedRaw : TaskResult :=
  { status := .submitted, data := some (.dict []), success := true }

/-- C2: for every A2A reply whose artifacts list is non-empty and whose last
artifact contains at least one data-kind part, the extracted payload equals
the data field of the last data-kind part of the last artifact, regardless of
earlier artifacts and parts; and for every reply with zero artifacts, or
whose last artifact has no parts or no data-kind part, extraction does not
throw but returns the raw reply itself. -/
theorem claim_C2 :
    (∀ (reply : PyVal) (arts : List PyVal) (lastArt : PyVal) (parts : List PyVal)
        (dp d : PyVal),
        dictLookup reply "artifacts" = some (.list arts) →
        arts.getLast? = some lastArt →
        dictLookup lastArt "parts" = some (.list parts) →
        (parts.filter isDataPart).getLast? = some dp →
        dictLookup dp "data" = some d →
        extract_result reply = d) ∧
    (∀ reply : PyVal, NoDataEnvelope reply → extract_result reply = reply) := by
  constructor
  · intro reply arts lastArt parts dp d h1 h2 h3 h4 h5
    have hne : parts.isEmpty = false := by
      cases parts with
      | nil => simp [List.filter] at h4
      | cons a l => rfl
    simp [extract_result, pyGetD, h1, h2, h3, hne, h4, h5]
  · intro reply h
    rcases h with h | h | ⟨arts, lastArt, h1, h2, h3⟩
    · simp [extract_result, pyGetD, h]
    · simp [extract_result, pyGetD, h]
    · rcases h3 with h3 | h3 | ⟨parts, h3, h4⟩
      · simp [extract_result, pyGetD, h1, h2, h3]
      · simp [extract_result, pyGetD, h1, h2, h3]
      · by_cases hp : parts.isEmpty
        · simp [extract_result, pyGetD, h1, h2, h3, hp]
        · simp [extract_result, pyGetD, h1, h2, h3, hp, h4]

/-- C2 witness: the streaming reply resolves to the data of the last
data-kind part of the last artifact, and a reply without artifacts falls
back to the raw reply. -/
theorem claim_C2_witness :
    extract_result streamingReply = .dict [("products", .list [])] ∧
    extract_result (.dict []) = .dict [] :=
  ⟨claim_C2.1 streamingReply _ _ _ _ _ rfl rfl rfl rfl rfl,
   claim_C2.2 (.dict []) (Or.inl rfl)⟩

/-- C6 counterexample: a completed reply whose last artifact holds two text
parts surfaces the text of the FIRST text-kind part, not the last one as the
claim states. -/
theorem counterexample_C6 :
    extract_text_part twoTextReply = some "first message" ∧
    extract_text_part twoTextReply ≠ some "last message" := by
  decide

/-- C6 amended: on a reply whose last artifact contains a text-kind part, the
adapter computes a human-readable message equal to the text of the FIRST
text-kind part of that artifact and passes it as a message keyword to the
TaskResult constructor; TaskResult defines no message field, so the
constructed Completed result does not retain it. -/
theorem claim_C6 :
    ∀ (reply : PyVal) (arts : List PyVal) (lastArt : PyVal) (parts : List PyVal)
      (p : PyVal) (t : String),
      dictLookup reply "artifacts" = some (.list arts) →
      arts.getLast? = some lastArt →
      dictLookup lastArt "parts" = some (.list parts) →
      parts.find? isTextPart = some p →
      pyGet p "text" = .str t →
      extract_text_part reply = some t := by
  intro reply arts lastArt parts p t h1 h2 h3 h4 h5
  simp [extract_text_part, pyGetD, h1, h2, h3, h4, h5, pyStr]

/-- C6 witness: the two-text reply surfaces the first text. -/
theorem claim_C6_witness : extract_text_part twoTextReply = some "first message" :=
  claim_C6 twoTextReply _ _ _ _ _ rfl rfl rfl rfl rfl

/-- C4: for every A2A reply with wire status completed whose extracted
payload is a mapping, the adapter returns a Completed result whose success
flag is false exactly when the payload holds a non-empty errors array, and
true when the payload has no errors key or an empty errors array. -/
theorem claim_C4 :
    ∀ (reply : PyVal) (dbg : Option DebugInfo) (fields : List (String × PyVal)),
      pyGet reply "status" = .str "completed" →
      extract_result reply = .dict fields →
      (a2aDispatch reply dbg).status = .completed ∧
      (∀ errs : List PyVal, lookupField fields "errors" = some (.list errs) →
        (a2aDispatch reply dbg).success = errs.isEmpty) ∧
      (lookupField fields "errors" = Option.none → (a2aDispatch reply dbg).success = true) := by
  intro reply dbg fields h1 h2
  refine ⟨?_, ?_, ?_⟩
  · simp [a2aDispatch, h1, h2]
  · intro errs he
    simp [a2aDispatch, h1, h2, pyGetD, dictLookup, he, pyTruthy]
  · intro he
    simp [a2aDispatch, h1, h2, pyGetD, dictLookup, he, pyTruthy]

/-- C4 witness: the budget-exceeded reply yields a Completed result with
success false. -/
theorem claim_C4_witness :
    (a2aDispatch errorsReply Option.none).status = .completed ∧
    (a2aDispatch errorsReply Option.none).success = false := by
  have h := claim_C4 errorsReply Option.none
    [("errors", .list [.dict [("code", .str "budget_exceeded"),
      ("message", .str "budget exceeded")]])] rfl rfl
  exact ⟨h.1, by rw [h.2.1 _ rfl]; rfl⟩

/-- C1 counterexample: a working reply produces a Submitted result whose
payload sits in data while the submitted info is null, so no field agrees
with the Submitted discriminant as the claim requires; and a completed reply
whose data part carries an explicit null data field produces a Completed
result with null data, which the claim says is never constructed. -/
theorem counterexample_C1 :
    (a2aDispatch workingReply Option.none).status = .submitted ∧
    (a2aDispatch workingReply Option.none).submitted = Option.none ∧
    (a2aDispatch workingReply Option.none).data ≠ Option.none ∧
    (a2aDispatch nullDataReply Option.none).status = .completed ∧
    (a2aDispatch nullDataReply Option.none).data = Option.none := by
  decide

/-- C1 amended: every TaskResult constructed by the adapters or the
normalizer leaves the submitted and needs-input payloads null; a Failed
result carries exactly a non-null error with null data and success false;
every non-Failed result carries a null error and holds its payload, possibly
null when the wire carried an explicit null, in data. -/
theorem claim_C1 :
    (∀ (reply : PyVal) (dbg : Option DebugInfo), ResultShapeOK (a2aDispatch reply dbg)) ∧
    (∀ (e : String) (dbg : Option DebugInfo), ResultShapeOK (a2aHttpErrorResult e dbg)) ∧
    (∀ outcome : Except String PyVal, ResultShapeOK (mcpCallTool outcome)) ∧
    (∀ (pm pj : PyVal → Except String PyVal) (r : TaskResult),
      ResultShapeOK r → ResultShapeOK (parse_response pm pj r)) := by
  refine ⟨?_, ?_, ?_, ?_⟩
  · intro reply dbg
    unfold a2aDispatch
    split <;> simp [ResultShapeOK]
  · intro e dbg
    simp [ResultShapeOK, a2aHttpErrorResult]
  · intro outcome
    unfold mcpCallTool
    split <;> simp [ResultShapeOK]
  · intro pm pj r h
    unfold parse_response
    by_cases hg : r.success = false ∨ r.data = Option.none
    · simpa [hg] using h
    · push_neg at hg
      have hsucc : r.success = true := by
        cases hs : r.success
        · exact absurd hs hg.1
        · rfl
      have hnf : r.status ≠ .failed := by
        intro hf
        have := (h.2.2.1 hf).2.2
        rw [hsucc] at this
        exact Bool.noConfusion this
      rcases hd : r.data with _ | d
      · exact absurd hd hg.2
      · simp only [hg, hd, if_false, or_self, ite_false]
        rcases hp : selectParse pm pj d with v | e
        · simp [ResultShapeOK, hp]
        · simp [ResultShapeOK, hp, hnf, h.2.2.2 hnf]

/-- C1 amended witness: the invariant holds for the normalized output of a
successfully completed MCP call. -/
theorem claim_C1_witness :
    ResultShapeOK (parse_response demoParse demoParse
      (mcpCallTool (.ok (.dict [("products", .list [])])))) :=
  claim_C1.2.2.2 demoParse demoParse _ (claim_C1.2.2.1 _)

/-- C3 counterexample: a success true Submitted raw result carrying partial
data is NOT passed through unchanged although its status is not Completed:
the normalizer runs the parse pass on it and, the partial payload failing to
parse, rewrites it into a Failed result. -/
theorem counterexample_C3 :
    submittedRaw.status ≠ TaskStatus.completed ∧
    parse_response demoParse demoParse submittedRaw ≠ submittedRaw ∧
    (parse_response demoParse demoParse submittedRaw).status = .failed := by
  decide

/-- C3 amended: the normalizer passes a raw TaskResult through unchanged
exactly when its success flag is false or its data is null; the status
discriminant is not consulted, so a success true non-Completed result bearing
data is reshaped like the Completed ones. -/
theorem claim_C3 :
    ∀ (pm pj : PyVal → Except String PyVal) (r : TaskResult),
      r.success = false ∨ r.data = Option.none →
      parse_response pm pj r = r := by
  intro pm pj r h
  unfold parse_response
  simp [h]

/-- C3 amended witness: a Failed raw result passes through unchanged. -/
theorem claim_C3_witness :
    parse_response demoParse demoParse
      { status := .failed, error := some "boom", success := false } =
      { status := .failed, error := some "boom", success := false } :=
  claim_C3 demoParse demoParse _ (Or.inl rfl)

/-- C9: for every data-bearing successful raw result whose payload fails the
parse pass, the normalizer returns a Failed result with success false and a
descriptive error, carrying over the debug info; the parse failure, a raised
ValueError in the source, never escapes the normalizer. -/
theorem claim_C9 :
    ∀ (pm pj : PyVal → Except String PyVal) (r : TaskResult) (d : PyVal) (e : String),
      r.status = .completed →
      r.success = true →
      r.data = some d →
      selectParse pm pj d = .error e →
      parse_response pm pj r =
        { status := .failed
          error := some (String.append "Failed to parse response: " e)
          success := false
          debug_info := r.debug_info } := by
  intro pm pj r d e _ hs hd hp
  unfold parse_response
  simp [hs, hd, hp]

/-- C9 witness: a completed result with a non-object payload is downgraded to
Failed by the demo shape parse. -/
theorem claim_C9_witness :
    parse_response demoParse demoParse
      { status := .completed, data := some (.str "oops"), success := true } =
      { status := .failed
        error := some "Failed to parse response: response payload is not an object"
        success := false } :=
  claim_C9 demoParse demoParse _ (.str "oops") _ rfl rfl rfl rfl

/-- C7: the unwrap of the simple accessor returns the payload exactly when
the status is completed and data is non-null; a Submitted result raises with
a message naming the pending webhook URL, a NeedsInput result with the
clarification message, a Failed result with the failure detail where a null
or empty detail is replaced by the unknown fallback of the Python or idiom;
every result that is not completed with data raises, so no TaskResult is
ever returned. -/
theorem claim_C7 :
    ∀ r : TaskResult,
      (∀ d : PyVal, unwrap r = .ok d ↔ (r.status = .completed ∧ r.data = some d)) ∧
      (r.status = .submitted → ∀ s : SubmittedInfo, r.submitted = some s →
        unwrap r = .error (String.append
          "Task submitted for async processing. Webhook: " s.webhook_url)) ∧
      (r.status = .needs_input → ∀ n : NeedsInputInfo, r.needs_input = some n →
        unwrap r = .error (String.append "Agent needs input: " n.message)) ∧
      (r.status = .failed →
        unwrap r = .error (String.append "Task failed: "
          (orDefaultStr r.error "unknown error"))) ∧
      ((r.status ≠ .completed ∨ r.data = Option.none) →
        ∃ m : String, unwrap r = .error m) := by
  intro r
  refine ⟨?_, ?_, ?_, ?_, ?_⟩
  · intro d
    constructor
    · intro h
      unfold unwrap at h
      by_cases hc : r.status = .completed ∧ r.data ≠ Option.none
      · rw [if_pos hc] at h
        rcases hd : r.data with _ | v
        · exact absurd hd hc.2
        · rw [hd] at h
          simp only [Option.getD_some, Except.ok.injEq] at h
          exact ⟨hc.1, congrArg Option.some h⟩
      · rw [if_neg hc] at h
        split at h
        · simp at h
        · split at h
          · simp at h
          · split at h
            · simp at h
            · simp at h
    · intro ⟨h1, h2⟩
      unfold unwrap
      rw [if_pos ⟨h1, by rw [h2]; exact fun hx => Option.noConfusion hx⟩, h2]
      rfl
  · intro h1 s h2
    unfold unwrap
    rw [if_neg (fun hc => by rw [h1] at hc; exact TaskStatus.noConfusion hc.1),
      if_pos h1, h2]
  · intro h1 n h2
    unfold unwrap
    rw [if_neg (fun hc => by rw [h1] at hc; exact TaskStatus.noConfusion hc.1),
      if_neg (by rw [h1]; exact fun hx => TaskStatus.noConfusion hx),
      if_pos h1, h2]
  · intro h1
    unfold unwrap
    rw [if_neg (fun hc => by rw [h1] at hc; exact TaskStatus.noConfusion hc.1),
      if_neg (by rw [h1]; exact fun hx => TaskStatus.noConfusion hx),
      if_neg (by rw [h1]; exact fun hx => TaskStatus.noConfusion hx),
      if_pos h1]
  · intro h
    unfold unwrap
    rw [if_neg (fun hc => by
      rcases h with h | h
      · exact h hc.1
      · exact hc.2 h)]
    split
    · exact ⟨_, rfl⟩
    · split
      · exact ⟨_, rfl⟩
      · split
        · exact ⟨_, rfl⟩
        · exact ⟨_, rfl⟩

/-- C7 witness: unwrapping a Submitted result raises with the webhook URL in
the message. -/
theorem claim_C7_witness :
    unwrap { status := .submitted,
             submitted := some { webhook_url := "https://example.com/hook",
                                 operation_id := "op-1" } } =
      .error "Task submitted for async processing. Webhook: https://example.com/hook" := by
  exact (claim_C7 _).2.1 rfl ⟨"https://example.com/hook", "op-1"⟩ rfl

/-- C8: when the configured URI does not already end in the mcp suffix, the
session acquisition candidate list is the verbatim URI followed by the URI
with the suffix appended, and the fallback URL is attempted exactly when the
verbatim attempt fails; when the URI already ends in the suffix, only the
verbatim URI is ever attempted. -/
theorem claim_C8 :
    ∀ (agent_uri : String) (connectOk : String → Bool),
      (strEndsWith (rstripSlash agent_uri) "/mcp" = false →
        urlsToTry agent_uri = [agent_uri, String.append (rstripSlash agent_uri) "/mcp"] ∧
        (connectOk agent_uri = true →
          attemptsMade connectOk (urlsToTry agent_uri) = [agent_uri]) ∧
        (connectOk agent_uri = false →
          attemptsMade connectOk (urlsToTry agent_uri) =
            [agent_uri, String.append (rstripSlash agent_uri) "/mcp"])) ∧
      (strEndsWith (rstripSlash agent_uri) "/mcp" = true →
        urlsToTry agent_uri = [agent_uri] ∧
        attemptsMade connectOk (urlsToTry agent_uri) = [agent_uri]) := by
  intro agent_uri connectOk
  constructor
  · intro h
    refine ⟨by simp [urlsToTry, h], ?_, ?_⟩
    · intro hc
      simp [urlsToTry, h, attemptsMade, hc]
    · intro hc
      cases h2 : connectOk (String.append (rstripSlash agent_uri) "/mcp") <;>
        simp [urlsToTry, h, attemptsMade, hc, h2]
  · intro h
    refine ⟨by simp [urlsToTry, h], ?_⟩
    cases hc : connectOk agent_uri <;> simp [urlsToTry, h, attemptsMade, hc]

/-- C8 witness: Scenario A, a configured URI without the suffix where every
connection attempt fails: both candidates are attempted, verbatim first. -/
theorem claim_C8_witness :
    urlsToTry "https://agent.example.com" =
      ["https://agent.example.com", "https://agent.example.com/mcp"] ∧
    attemptsMade (fun _ => false) (urlsToTry "https://agent.example.com") =
      ["https://agent.example.com", "https://agent.example.com/mcp"] := by
  have h := (claim_C8 "https://agent.example.com" (fun _ => false)).1 (by decide)
  exact ⟨h.1, h.2.2 rfl⟩

/-- C5: the claim that every adapter exception carries the agent id and URI,
and timeouts the configured timeout, fails on the code: the exception classes
in exceptions.py define no fields, so the A2A raise sites that pass agent id
and URI keyword arguments crash in the exception constructor (TypeError,
keyword arguments rejected), and the MCP classification raise sites build
exceptions whose only content is a message naming the agent id but neither
the URI nor the timeout value. -/
theorem claim_C5 :
    a2aListToolsRaise demoConfig 401 = PyRaise.typeError ∧
    mcpClassifyRaise demoConfig "Request timeout after 30 seconds" =
      .exc "ADCPTimeoutError"
        [.str "Connection timeout for agent test-agent: Request timeout after 30 seconds"] := by
  constructor
  · decide
  · decide

/-- C10: after close the adapter references are null, closing again performs
no second teardown and raises nothing, and the next client or session request
after a close establishes a fresh one; the MCP hypothesis is the invariant,
maintained by every assignment in the source, that a live session implies a
live exit stack. -/
theorem claim_C10 :
    ∀ (s : A2AClientState) (ms : MCPSessionState) (fresh : Nat),
      (ms.session.isSome = true → ms.exit_stack.isSome = true) →
      (a2aClose s).1 = Option.none ∧
      a2aClose (a2aClose s).1 = (Option.none, false) ∧
      a2aGetClient (a2aClose s).1 fresh = (some fresh, fresh, true) ∧
      (mcpClose ms).1.session = Option.none ∧
      (mcpClose ms).1.exit_stack = Option.none ∧
      mcpClose (mcpClose ms).1 = ((mcpClose ms).1, false) ∧
      mcpGetSession (mcpClose ms).1 fresh =
        ({ session := some fresh, exit_stack := some fresh }, fresh, true) := by
  intro s ms fresh hinv
  have hA : (a2aClose s).1 = Option.none := by
    cases s <;> rfl
  have hM : (mcpClose ms).1 = { session := Option.none, exit_stack := Option.none } := by
    rcases ms with ⟨sess, stack⟩
    cases stack
    · cases sess
      · rfl
      · exact absurd (hinv rfl) (by simp)
    · rfl
  refine ⟨hA, ?_, ?_, ?_, ?_, ?_, ?_⟩
  · rw [hA]; rfl
  · rw [hA]; rfl
  · rw [hM]
  · rw [hM]
  · rw [hM]; rfl
  · rw [hM]; rfl

/-- C10 witness: a live A2A client and a live MCP session torn down and
reacquired. -/
theorem claim_C10_witness :
    (a2aClose (some 5)).1 = Option.none ∧
    mcpGetSession (mcpClose { session := some 1, exit_stack := some 2 }).1 7 =
      ({ session := some 7, exit_stack := some 7 }, 7, true) := by
  have h := claim_C10 (some 5) { session := some 1, exit_stack := some 2 } 7 (by decide)
  exact ⟨h.1, h.2.2.2.2.2.2⟩

end Adcp
